import Mathlib

/-!
Verification development for the CPS-HELICS-WNTR co-simulation repository.

Shallow embedding of the Python sources:
  * `src/common/schema.py`        — message schema (`SensorSnapshot`, `ActuatorCommand`);
  * `src/ctrl_fed/federate.py`    — controller federate (PLC config parsing, hysteresis FSM,
                                    snapshot update handling);
  * `src/phys_fed/federate.py`    — physical-plant federate (command accumulator merge,
                                    running-loop body, report writer);
  * `src/phys_fed/wntr_plant.py`  — `WNTRPlant` stepper (command application, time advance,
                                    record/CSV layout).

Conventions: Python `float` is modelled as `ℚ`; Python `dict` as an insertion-ordered
association list `List (String × α)` with overwrite-or-append assignment; JSON payload
values as the inductive `JValue`; code that can raise is modelled in `Except String`.
The external EPANET solver and the HELICS broker are black boxes, as in the design
documents: solver observations enter as oracle parameters.
-/

/-- Python `dict` lookup (`d.get(k)` / `k in d`) on an insertion-ordered assoc list. -/
def pyLookup {α : Type} : List (String × α) → String → Option α
  | [], _ => none
  | (k, v) :: rest, key => if k = key then some v else pyLookup rest key

/-- Python `dict` assignment `d[k] = v`: overwrite in place if the key exists,
otherwise append at the end (insertion order preserved). -/
def pyInsert {α : Type} : List (String × α) → String → α → List (String × α)
  | [], key, v => [(key, v)]
  | (k, w) :: rest, key, v =>
    if k = key then (k, v) :: rest else (k, w) :: pyInsert rest key v

/-- JSON values as decoded by `json.loads` (ints and floats kept distinct, as Python does). -/
inductive JValue : Type where
  | null : JValue
  | bool (b : Bool) : JValue
  | int (n : ℤ) : JValue
  | num (q : ℚ) : JValue
  | str (s : String) : JValue
  | arr (xs : List JValue) : JValue
  | obj (fields : List (String × JValue)) : JValue

/-- Python truthiness of a JSON value (`if v:`). -/
def jTruthy : JValue → Bool
  | JValue.null => false
  | JValue.bool b => b
  | JValue.int n => n ≠ 0
  | JValue.num q => q ≠ 0
  | JValue.str s => s ≠ ""
  | JValue.arr xs => ¬ xs.isEmpty
  | JValue.obj fs => ¬ fs.isEmpty

/-- Python `a or b`: the first operand if truthy, otherwise the second. -/
def pyOr (a b : JValue) : JValue := if jTruthy a then a else b

/-- Python `v == "s"` between a JSON value and a string literal. -/
def jStrEq : JValue → String → Bool
  | JValue.str s, t => s = t
  | _, _ => false

/-- Python `v.items()`: succeeds only on a dict, raises `AttributeError` otherwise. -/
def jItems : JValue → Except String (List (String × JValue))
  | JValue.obj fs => Except.ok fs
  | _ => Except.error "AttributeError: items"

/-- Python `v.get(k, dflt)`: succeeds only on a dict, raises `AttributeError` otherwise. -/
def jGetD (v : JValue) (k : String) (dflt : JValue) : Except String JValue :=
  match v with
  | JValue.obj fs => Except.ok ((pyLookup fs k).getD dflt)
  | _ => Except.error "AttributeError: get"

/-- Python `v[0]` on a truthy value: first element of a list, first character of a
string, `TypeError` otherwise. -/
def jHead : JValue → Except String JValue
  | JValue.arr (x :: _) => Except.ok x
  | JValue.str s => if s = "" then Except.error "IndexError" else Except.ok (JValue.str (s.take 1))
  | _ => Except.error "TypeError: not subscriptable"

/-- Digits of a numeral (most significant first) to a natural number. -/
def digitsToNat (cs : List Char) : ℕ :=
  cs.foldl (fun n c => 10 * n + (c.toNat - 48)) 0

/-- Unsigned decimal numeral, optionally with a single point (`12`, `12.`, `.5`, `12.5`).
Python `float()` accepts further forms (exponents, `inf`, `nan`); those are outside
this model and no claim exercises them. -/
def parseUnsignedFloat (cs : List Char) : Option ℚ :=
  match cs.splitOn (Char.ofNat 46) with
  | [ip] => if ip ≠ [] ∧ ip.all Char.isDigit then some ((digitsToNat ip : ℚ)) else none
  | [ip, fp] =>
    if (ip ≠ [] ∨ fp ≠ []) ∧ ip.all Char.isDigit ∧ fp.all Char.isDigit then
      some ((digitsToNat ip : ℚ) + (digitsToNat fp : ℚ) / ((10 : ℚ) ^ fp.length))
    else none
  | _ => none

/-- Python `float(s)` on a string: strip surrounding whitespace, optional sign, numeral. -/
def parsePyFloat (s : String) : Option ℚ :=
  match s.trim.data with
  | [] => none
  | c :: rest =>
    if c = Char.ofNat 45 then (parseUnsignedFloat rest).map Neg.neg
    else if c = Char.ofNat 43 then parseUnsignedFloat rest
    else parseUnsignedFloat (c :: rest)

/-- Python `float(v)` on a JSON value: numbers pass through, booleans become 0/1,
numeric strings are parsed, everything else raises. -/
def pyFloat : JValue → Except String ℚ
  | JValue.int n => Except.ok (n : ℚ)
  | JValue.num q => Except.ok q
  | JValue.bool b => Except.ok (if b then 1 else 0)
  | JValue.str s =>
    match parsePyFloat s with
    | some q => Except.ok q
    | none => Except.error "ValueError: could not convert string to float"
  | JValue.null => Except.error "TypeError: float() argument is None"
  | JValue.arr _ => Except.error "TypeError: float() argument is a list"
  | JValue.obj _ => Except.error "TypeError: float() argument is a dict"

/-- Python `repr` of a float. Integral floats render as `n.0`; the decimal rendering of
non-integral floats is approximated (no claim depends on it). -/
def floatRepr (q : ℚ) : String :=
  if q.den = 1 then toString q.num ++ ".0" else toString q

mutual
/-- Python `repr(v)` of a JSON value (quotes around strings, `None`/`True`/`False`). -/
def pyRepr : JValue → String
  | JValue.null => "None"
  | JValue.bool b => if b then "True" else "False"
  | JValue.int n => toString n
  | JValue.num q => floatRepr q
  | JValue.str s => "\x27" ++ s ++ "\x27"
  | JValue.arr xs => "[" ++ pyReprList xs ++ "]"
  | JValue.obj fs => "\x7b" ++ pyReprFields fs ++ "\x7d"

/-- Comma-separated `repr`s of list elements. -/
def pyReprList : List JValue → String
  | [] => ""
  | [x] => pyRepr x
  | x :: y :: xs => pyRepr x ++ ", " ++ pyReprList (y :: xs)

/-- Comma-separated `repr`s of dict entries. -/
def pyReprFields : List (String × JValue) → String
  | [] => ""
  | [(k, v)] => "\x27" ++ k ++ "\x27: " ++ pyRepr v
  | (k, v) :: f :: fs => "\x27" ++ k ++ "\x27: " ++ pyRepr v ++ ", " ++ pyReprFields (f :: fs)
end

/-- Python `str(v)` of a JSON value: strings pass through bare, others as `repr`. -/
def pyStr : JValue → String
  | JValue.str s => s
  | v => pyRepr v

/-! ## `src/common/schema.py` -/

/-- The dict comprehension of `SensorSnapshot.from_dict`:
`{str(k): float(v) for k, v in tl.items()}` (keys of a decoded JSON dict are already
strings, so `str(k) = k`); built left to right, raising on the first bad value. -/
def coerceFloatItems : List (String × JValue) → List (String × ℚ) →
    Except String (List (String × ℚ))
  | [], acc => Except.ok acc
  | (k, v) :: rest, acc =>
    match pyFloat v with
    | Except.error e => Except.error e
    | Except.ok q => coerceFloatItems rest (pyInsert acc k q)

/-- The dict comprehension of `ActuatorCommand.from_dict`:
`{str(k): str(v) for k, v in pumps.items()}` (total: `str` never raises). -/
def coerceStrItems : List (String × JValue) → List (String × String) → List (String × String)
  | [], acc => acc
  | (k, v) :: rest, acc => coerceStrItems rest (pyInsert acc k (pyStr v))

/-- `SensorSnapshot.from_dict(d)` (schema.py lines 14-17):
`tl = d.get("tank_level", {}) or {}` then the float-coercing dict comprehension. -/
def SensorSnapshot.from_dict (d : List (String × JValue)) :
    Except String (List (String × ℚ)) :=
  match jItems (pyOr ((pyLookup d "tank_level").getD (JValue.obj [])) (JValue.obj [])) with
  | Except.error e => Except.error e
  | Except.ok fields => coerceFloatItems fields []

/-- `ActuatorCommand.from_dict(d)` (schema.py lines 28-32):
`pumps = d.get("pumps", {}) or {}` then the str-coercing dict comprehension. -/
def ActuatorCommand.from_dict (d : List (String × JValue)) :
    Except String (List (String × String)) :=
  match jItems (pyOr ((pyLookup d "pumps").getD (JValue.obj [])) (JValue.obj [])) with
  | Except.error e => Except.error e
  | Except.ok fields => Except.ok (coerceStrItems fields [])

/-! ## `src/ctrl_fed/federate.py` -/

/-- One parsed PLC configuration entry, the dict appended to `plc_cfgs`
(ctrl_fed/federate.py lines 43-53). -/
structure PlcCfg : Type where
  topic : JValue
  pump : JValue
  below : ℚ
  above : ℚ
  initial : String
  openVal : String
  closedVal : String

/-- Parsing of one entry of `cfg["plcs"]` (ctrl_fed/federate.py lines 27-53).
Returns `none` for the two `continue` filters (wrong `type`, wrong `logic.kind`);
propagates the exceptions Python would raise (e.g. `float(None)` when `below` or
`above` is missing). Note: the source performs no comparison between `below`
and `above`. -/
def parsePlc (plc : List (String × JValue)) : Except String (Option PlcCfg) :=
  if ¬ jStrEq ((pyLookup plc "type").getD JValue.null) "actuator_plc" then
    Except.ok none
  else
    let publishes := (pyLookup plc "publishes").getD (JValue.arr [])
    match (if jTruthy publishes then jHead publishes else Except.ok (JValue.obj [])) with
    | Except.error e => Except.error e
    | Except.ok pubEntry =>
      match jGetD pubEntry "topic" JValue.null with
      | Except.error e => Except.error e
      | Except.ok topic =>
        match jGetD pubEntry "schema" JValue.null with
        | Except.error e => Except.error e
        | Except.ok schemaRaw =>
          match jGetD (pyOr schemaRaw (JValue.obj [])) "pump_cmd" (JValue.obj []) with
          | Except.error e => Except.error e
          | Except.ok schema =>
            match jGetD schema "pump" JValue.null with
            | Except.error e => Except.error e
            | Except.ok pumpSchema =>
              let pump := pyOr pumpSchema ((pyLookup plc "id").getD JValue.null)
              let logic := (pyLookup plc "logic").getD (JValue.obj [])
              match jGetD logic "kind" JValue.null with
              | Except.error e => Except.error e
              | Except.ok kind =>
                if ¬ jStrEq kind "hysteresis_threshold" then
                  Except.ok none
                else
                  match jGetD logic "below" JValue.null with
                  | Except.error e => Except.error e
                  | Except.ok belowV =>
                    match pyFloat belowV with
                    | Except.error e => Except.error e
                    | Except.ok below =>
                      match jGetD logic "above" JValue.null with
                      | Except.error e => Except.error e
                      | Except.ok aboveV =>
                        match pyFloat aboveV with
                        | Except.error e => Except.error e
                        | Except.ok above =>
                          match jGetD logic "initial" (JValue.str "CLOSED") with
                          | Except.error e => Except.error e
                          | Except.ok initialV =>
                            match jGetD logic "output" JValue.null with
                            | Except.error e => Except.error e
                            | Except.ok outputRaw =>
                              match jGetD (pyOr outputRaw (JValue.obj []))
                                  "open_value" (JValue.str "OPEN") with
                              | Except.error e => Except.error e
                              | Except.ok openV =>
                                match jGetD (pyOr outputRaw (JValue.obj []))
                                    "closed_value" (JValue.str "CLOSED") with
                                | Except.error e => Except.error e
                                | Except.ok closedV =>
                                  Except.ok (some
                                    { topic := topic
                                      pump := pump
                                      below := below
                                      above := above
                                      initial := pyStr initialV
                                      openVal := pyStr openV
                                      closedVal := pyStr closedV })

/-- The whole `for plc in cfg.get("plcs", []):` filter loop building `plc_cfgs`. -/
def parsePlcCfgs : List (List (String × JValue)) → Except String (List PlcCfg)
  | [] => Except.ok []
  | plc :: rest =>
    match parsePlc plc with
    | Except.error e => Except.error e
    | Except.ok none => parsePlcCfgs rest
    | Except.ok (some cfg) =>
      match parsePlcCfgs rest with
      | Except.error e => Except.error e
      | Except.ok cfgs => Except.ok (cfg :: cfgs)

/-- One hysteresis FSM step (ctrl_fed/federate.py lines 92-99): the new commanded
state for one pump, from the previous state, the measurement (`None` when no
snapshot has delivered a value yet), the band, and the two output tokens. -/
def hysteresisStep (below above : ℚ) (openVal closedVal prev : String)
    (m : Option ℚ) : String :=
  match m with
  | none => prev
  | some v => if v < below then openVal else if v > above then closedVal else prev

/-- Controller handling of a fresh update on the sensor topic
(ctrl_fed/federate.py lines 81-86): `none` models no fresh update,
`some (Except.error _)` a payload on which `json.loads` raised; any failure
inside the `try` leaves `last_snap` unchanged. -/
def ctrlApplyUpdate (lastSnap : List (String × ℚ))
    (upd : Option (Except String (List (String × JValue)))) : List (String × ℚ) :=
  match upd with
  | none => lastSnap
  | some (Except.error _) => lastSnap
  | some (Except.ok d) =>
    match SensorSnapshot.from_dict d with
    | Except.error _ => lastSnap
    | Except.ok snap => snap

/-! ## `src/phys_fed/wntr_plant.py` -/

/-- `wntr.network.base.LinkStatus` restricted to the members the code uses. -/
inductive LinkStatus : Type where
  | Opened : LinkStatus
  | Closed : LinkStatus
  | Active : LinkStatus
deriving DecidableEq

/-- The state `WNTRPlant.step`/`_observe*` return (wntr_plant.py lines 19-27). -/
structure WNTRState : Type where
  tank_level : List (String × ℚ)
  pump_status : List (String × String)

/-- Python `str.upper()` restricted to ASCII, which covers every status token the
code compares against. -/
def pyUpper (s : String) : String := String.mk (s.data.map Char.toUpper)

/-- Application of one `(pump_name, state)` entry of the command dict to the
network's pump statuses (wntr_plant.py lines 133-157). `pumpNames` is the
session's configured `_pump_names`; `netLinks` the link names for which
`wn.get_link` succeeds; `status` the solver-side `initial_status` map. -/
def applyPumpEntry (pumpNames netLinks : List String)
    (status : String → LinkStatus) (name tok : String) : String → LinkStatus :=
  if name ∈ pumpNames then
    if name ∈ netLinks then
      let s := pyUpper tok
      if s = "OPEN" ∨ s = "1" ∨ s = "ON" ∨ s = "TRUE" then
        fun p => if p = name then LinkStatus.Opened else status p
      else if s = "CLOSED" ∨ s = "0" ∨ s = "OFF" ∨ s = "FALSE" then
        fun p => if p = name then LinkStatus.Closed else status p
      else status
    else status
  else status

/-- The whole `for pump_name, state in pumps_cmd.items():` loop of `step`. -/
def applyPumpCmds (pumpNames netLinks : List String) (status : String → LinkStatus)
    (cmds : List (String × String)) : String → LinkStatus :=
  cmds.foldl (fun st kv => applyPumpEntry pumpNames netLinks st kv.1 kv.2) status

/-- Python 3 `round(q)` to an integer: round half to even. -/
def pyRound (q : ℚ) : ℤ :=
  if q - Int.floor q < 1 / 2 then Int.floor q
  else if q - Int.floor q > 1 / 2 then Int.floor q + 1
  else if Int.floor q % 2 = 0 then Int.floor q else Int.floor q + 1

/-- Python `int(q)`: truncation toward zero. -/
def pyTrunc (q : ℚ) : ℤ :=
  if 0 ≤ q then Int.floor q else -Int.floor (-q)

/-- `WNTRPlant.reset` (wntr_plant.py line 101): `self.sim_time = 0.0`. -/
def WNTRPlant.resetSimTime : ℚ := 0

/-- The time advance of `WNTRPlant.step` (wntr_plant.py line 163):
`self.sim_time += float(dt)`, unconditionally. -/
def WNTRPlant.stepSimTime (simTime dt : ℚ) : ℚ := simTime + dt

/-- `target_t = int(round(self.sim_time))` after the advance (wntr_plant.py line 165);
the solver is then re-run from time 0 with `duration = target_t`. -/
def WNTRPlant.stepTargetT (simTime dt : ℚ) : ℤ :=
  pyRound (WNTRPlant.stepSimTime simTime dt)

/-- Reported simulated time after a sequence of `step(dt_i)` calls following `reset`. -/
def WNTRPlant.simTimeAfter (dts : List ℚ) : ℚ :=
  dts.foldl WNTRPlant.stepSimTime WNTRPlant.resetSimTime

/-- `WNTRPlant.make_record` (wntr_plant.py lines 201-221): flattens a state into a
row dict `{"t": t, "tank_level": ..., "<pump>_status": ...}`. -/
def WNTRPlant.make_record (pumpNames : List String) (defaultTank : Option String)
    (t : ℤ) (state : WNTRState) (tankId : Option String) : List (String × JValue) :=
  let tankKey := match tankId with | some k => some k | none => defaultTank
  let row : List (String × JValue) := [("t", JValue.int t)]
  let row := pyInsert row "tank_level"
    (match tankKey with
     | none => JValue.null
     | some k =>
       match pyLookup state.tank_level k with
       | some q => JValue.num q
       | none => JValue.null)
  pumpNames.foldl
    (fun r p =>
      pyInsert r (p ++ "_status")
        (JValue.str ((pyLookup state.pump_status p).getD "UNKNOWN")))
    row

/-- `WNTRPlant.write_records_csv` (wntr_plant.py lines 225-243) as data: the header
row and the cell rows the csv writer receives, in order. Missing cells default to
the empty string, as `row.get(col, "")` does. -/
def WNTRPlant.write_records_csv (pumpNames : List String)
    (records : List (List (String × JValue))) : List String × List (List JValue) :=
  let pumpCols := pumpNames.map (fun p => p ++ "_status")
  ("t" :: "tank_level" :: pumpCols,
   records.map (fun row =>
     (pyLookup row "t").getD (JValue.str "") ::
     (pyLookup row "tank_level").getD (JValue.str "") ::
     pumpCols.map (fun col => (pyLookup row col).getD (JValue.str ""))))

/-! ## `src/phys_fed/federate.py` -/

/-- The merge of a decoded incoming command into the pending-command accumulator
(phys_fed/federate.py lines 154-155): `for k, v in incoming.pumps.items():
pending_cmd.pumps[k] = v`, key by key, last write wins. -/
def mergeCmd (pending incoming : List (String × String)) : List (String × String) :=
  incoming.foldl (fun acc kv => pyInsert acc kv.1 kv.2) pending

/-- Handling of one subscription's fresh update in the physical federate
(phys_fed/federate.py lines 148-158). `none` models `helicsInputIsUpdated` false;
`some (Except.error _)` a raw payload on which `json.loads` raised; a failure
anywhere inside the `try` (decode or schema conversion) leaves the accumulator
unchanged. -/
def physApplyUpdate (pending : List (String × String))
    (upd : Option (Except String (List (String × JValue)))) : List (String × String) :=
  match upd with
  | none => pending
  | some (Except.error _) => pending
  | some (Except.ok d) =>
    match ActuatorCommand.from_dict d with
    | Except.error _ => pending
    | Except.ok incoming => mergeCmd pending incoming

/-- Loop state of `run_phys_federate`'s `while t < t_end` loop
(phys_fed/federate.py lines 133-171). -/
structure PhysLoopState : Type where
  t : ℚ
  pending : List (String × String)
  records : List (List (String × JValue))
  stepCount : ℕ
  simTime : ℚ

/-- One iteration of the physical federate's running loop
(phys_fed/federate.py lines 141-171): take the granted time, fold the fresh
subscription updates into the accumulator, invoke `plant.step(dt, ...)`
(which advances `sim_time` by `dt` unconditionally), publish, and append
one record at `t = int(granted)`. The solver observation at the target time
enters through the `observeAt` oracle. -/
def physLoopIter (dt : ℚ) (pumpNames : List String)
    (defaultTank tankId : Option String) (observeAt : ℤ → WNTRState)
    (st : PhysLoopState) (granted : ℚ)
    (updates : List (Option (Except String (List (String × JValue))))) : PhysLoopState :=
  let t := granted
  let pending := updates.foldl physApplyUpdate st.pending
  let simTime := WNTRPlant.stepSimTime st.simTime dt
  let target := pyRound simTime
  let state := observeAt target
  let recRow := WNTRPlant.make_record pumpNames defaultTank (pyTrunc t) state tankId
  { t := t
    pending := pending
    records := st.records ++ [recRow]
    stepCount := st.stepCount + 1
    simTime := simTime }

/-- The CSV the physical federate itself writes at the end of the run
(phys_fed/federate.py lines 179-183): header `["t", "tank_level"]` and, per
record, the cells `row["t"]` and `row["tank_level"]` (`KeyError` if absent). -/
def physFedCsv (records : List (List (String × JValue))) :
    List String × List (Except String (List JValue)) :=
  ("t" :: ["tank_level"],
   records.map (fun row =>
     match pyLookup row "t", pyLookup row "tank_level" with
     | some tv, some lv => Except.ok [tv, lv]
     | _, _ => Except.error "KeyError"))

/-! ## Spec-side model of the sub-step advance -/

/-- Modelled from the spec: §4.1 `step` describes advancement "as a loop of
solve-and-advance sub-steps accumulated until the cumulative sub-step time
reaches or exceeds `dt`, or the solver reports a zero-length sub-step (stall),
in which case the loop terminates early". No such loop exists in
`src/src/phys_fed/wntr_plant.py`; this definition follows the spec's words so
it can be compared with `WNTRPlant.stepSimTime`. `substep n` is the length the
solver reports for the `n`-th sub-step; `fuel` bounds the iteration count. -/
def specSubstepAdvance (substep : ℕ → ℚ) (dt : ℚ) : ℕ → ℕ → ℚ → ℚ
  | 0, _, acc => acc
  | fuel + 1, n, acc =>
    if dt ≤ acc then acc
    else if substep n = 0 then acc
    else specSubstepAdvance substep dt fuel (n + 1) (acc + substep n)

/-- Modelled from the spec: the session time `step(dt)` would report under the
spec's sub-step loop — the old time plus only the consumed sub-step time. -/
def specStepSimTime (substep : ℕ → ℚ) (fuel : ℕ) (simTime dt : ℚ) : ℚ :=
  simTime + specSubstepAdvance substep dt fuel 0 0

/-! ## Concrete fixtures used in witnesses and counterexamples -/

/-- A trivial solver-observation oracle: nothing observed at any target time. -/
def emptyObserve : ℤ → WNTRState := fun _ => { tank_level := [], pump_status := [] }

/-- Physical-federate loop state standing at t = 60 with one record already
appended for that time (no pump columns, no tank reading observed). -/
def physStateAt60 : PhysLoopState :=
  { t := 60
    pending := []
    records := [[("t", JValue.int 60), ("tank_level", JValue.null)]]
    stepCount := 1
    simTime := 60 }

/-- An `actuator_plc` configuration entry with hysteresis logic and the given
integer band, shaped exactly as `run_ctrl_federate` reads it. -/
def plcDictWithBand (below above : ℤ) : List (String × JValue) :=
  [("type", JValue.str "actuator_plc"),
   ("id", JValue.str "plc_pump1"),
   ("publishes", JValue.arr [JValue.obj [("topic", JValue.str "ctrl/commands/PUMP1")]]),
   ("logic", JValue.obj
     [("kind", JValue.str "hysteresis_threshold"),
      ("below", JValue.int below),
      ("above", JValue.int above)])]

/-! ## Helper lemmas on the dict model -/

theorem pyLookup_pyInsert {α : Type} (d : List (String × α)) (k : String) (v : α)
    (key : String) :
    pyLookup (pyInsert d k v) key = if k = key then some v else pyLookup d key := by
  induction d with
  | nil => simp [pyInsert, pyLookup]
  | cons hd tl ih =>
    obtain ⟨k0, v0⟩ := hd
    by_cases h : k0 = k
    · subst h
      simp only [pyInsert, if_pos rfl, pyLookup]
      by_cases hk : k0 = key
      · simp [hk]
      · simp [hk]
    · simp only [pyInsert, if_neg h, pyLookup, ih]
      by_cases hk : k0 = key
      · have hne : ¬ k = key := fun he => h (hk.trans he.symm)
        simp [hk, hne]
      · simp [hk]

theorem pyLookup_eq_none_of_not_mem {α : Type} (d : List (String × α)) (key : String)
    (h : key ∉ d.map Prod.fst) : pyLookup d key = none := by
  induction d with
  | nil => rfl
  | cons hd tl ih =>
    simp only [List.map_cons, List.mem_cons, not_or] at h
    simp only [pyLookup]
    rw [if_neg (fun he => h.1 he.symm), ih h.2]

/-! ## Claim theorems -/

/-- C2: the hysteresis FSM step is a pure function of the previous commanded state,
the measurement and the thresholds (it is embedded as a function of exactly those
arguments); given a non-degenerate band `below ≤ above` (the configured invariant):
an absent measurement retains the previous state, `m < below` transitions to the
open value, `m > above` transitions to the closed value, and every `m` in the
closed dead band `[below, above]` retains the previous state, regardless of
history. -/
theorem hysteresis_deadband_law (below above : ℚ) (openVal closedVal prev : String)
    (hband : below ≤ above) :
    hysteresisStep below above openVal closedVal prev none = prev ∧
    (∀ m : ℚ, m < below →
      hysteresisStep below above openVal closedVal prev (some m) = openVal) ∧
    (∀ m : ℚ, m > above →
      hysteresisStep below above openVal closedVal prev (some m) = closedVal) ∧
    (∀ m : ℚ, below ≤ m → m ≤ above →
      hysteresisStep below above openVal closedVal prev (some m) = prev) := by
  refine ⟨rfl, ?_, ?_, ?_⟩
  · intro m hm
    simp [hysteresisStep, hm]
  · intro m hm
    have h1 : ¬ m < below := by linarith
    simp [hysteresisStep, h1, hm]
  · intro m h1 h2
    have hb : ¬ m < below := by linarith
    have ha : ¬ m > above := by linarith
    simp [hysteresisStep, hb, ha]

/-- Witness for C2 at the band `[10, 12]`: dead-band latching at `m = 11`,
opening at `m = 9`, closing at `m = 13`, retention when no measurement arrived. -/
theorem hysteresis_deadband_law_witness :
    hysteresisStep 10 12 "OPEN" "CLOSED" "CLOSED" (some 11) = "CLOSED" ∧
    hysteresisStep 10 12 "OPEN" "CLOSED" "CLOSED" (some 9) = "OPEN" ∧
    hysteresisStep 10 12 "OPEN" "CLOSED" "OPEN" (some 13) = "CLOSED" ∧
    hysteresisStep 10 12 "OPEN" "CLOSED" "OPEN" none = "OPEN" := by
  have h := hysteresis_deadband_law 10 12 "OPEN" "CLOSED" "CLOSED" (by norm_num)
  have h2 := hysteresis_deadband_law 10 12 "OPEN" "CLOSED" "OPEN" (by norm_num)
  exact ⟨h.2.2.2 11 (by norm_num) (by norm_num), h.2.1 9 (by norm_num),
    h2.2.2.1 13 (by norm_num), h2.1⟩

/-- C3: merging an incoming command into the pending accumulator is key-by-key,
last-write-wins: afterwards every pump key of the incoming command reads its
incoming value, and every other key keeps its previous accumulator value —
the accumulator is never replaced wholesale. (`incoming` is a decoded Python
dict, so its keys are distinct.) -/
theorem mergeCmd_last_write_wins (pending incoming : List (String × String))
    (hnd : (incoming.map Prod.fst).Nodup) (key : String) :
    pyLookup (mergeCmd pending incoming) key =
      match pyLookup incoming key with
      | some v => some v
      | none => pyLookup pending key := by
  induction incoming generalizing pending with
  | nil => simp [mergeCmd, pyLookup]
  | cons hd tl ih =>
    obtain ⟨k0, v0⟩ := hd
    simp only [List.map_cons, List.nodup_cons] at hnd
    have step : mergeCmd pending ((k0, v0) :: tl) = mergeCmd (pyInsert pending k0 v0) tl := rfl
    rw [step, ih (pyInsert pending k0 v0) hnd.2]
    by_cases hk : k0 = key
    · subst hk
      have htl : pyLookup tl k0 = none := pyLookup_eq_none_of_not_mem tl k0 hnd.1
      simp [pyLookup, htl, pyLookup_pyInsert]
    · simp only [pyLookup, if_neg hk]
      cases h : pyLookup tl key with
      | some v => simp
      | none => simp [pyLookup_pyInsert, hk]

/-- Witness for C3: after merging `{"PUMP2": "OPEN"}` into
`{"PUMP1": "OPEN", "PUMP2": "CLOSED"}`, the key present in the incoming command
is overwritten and the absent key keeps its previous value. -/
theorem mergeCmd_last_write_wins_witness :
    pyLookup (mergeCmd [("PUMP1", "OPEN"), ("PUMP2", "CLOSED")] [("PUMP2", "OPEN")])
        "PUMP2" = some "OPEN" ∧
    pyLookup (mergeCmd [("PUMP1", "OPEN"), ("PUMP2", "CLOSED")] [("PUMP2", "OPEN")])
        "PUMP1" = some "OPEN" := by
  constructor
  · rw [mergeCmd_last_write_wins [("PUMP1", "OPEN"), ("PUMP2", "CLOSED")]
      [("PUMP2", "OPEN")] (by decide) "PUMP2"]
    rfl
  · rw [mergeCmd_last_write_wins [("PUMP1", "OPEN"), ("PUMP2", "CLOSED")]
      [("PUMP2", "OPEN")] (by decide) "PUMP1"]
    rfl

/-- C8: `reset` sets the session's reported simulated time to 0 and each
`step(dt)` with `dt ≥ 0` does not decrease it, so over any sequence of such
calls after `reset` the reported time is monotonically non-decreasing. -/
theorem simTime_monotone :
    WNTRPlant.resetSimTime = 0 ∧
    WNTRPlant.simTimeAfter [] = 0 ∧
    ∀ (dts : List ℚ) (dt : ℚ), 0 ≤ dt →
      WNTRPlant.simTimeAfter dts ≤ WNTRPlant.simTimeAfter (dts ++ [dt]) := by
  refine ⟨rfl, rfl, ?_⟩
  intro dts dt h
  simp only [WNTRPlant.simTimeAfter, List.foldl_append, List.foldl_cons, List.foldl_nil,
    WNTRPlant.stepSimTime]
  linarith

/-- Witness for C8: two 30-second steps after reset; the second call does not
decrease the reported time. -/
theorem simTime_monotone_witness :
    WNTRPlant.simTimeAfter [30] ≤ WNTRPlant.simTimeAfter ([30] ++ [30]) :=
  simTime_monotone.2.2 [30] 30 (by norm_num)

/-- C5: applying a command entry in `step`: an entry whose pump id is not in the
session's configured actuator list leaves every solver-side status unchanged
(silently ignored, as does an id the network has no link for); for a known pump,
a token whose upper-casing is one of OPEN/1/ON/TRUE sets that pump's solver
status to open, one of CLOSED/0/OFF/FALSE sets it to closed (synonyms normalized
to the canonical pair on interpretation), and any other token leaves the whole
previous solver-side status map unchanged. -/
theorem step_command_application (pumpNames netLinks : List String)
    (status : String → LinkStatus) (name tok : String) :
    (name ∉ pumpNames → applyPumpEntry pumpNames netLinks status name tok = status) ∧
    (name ∈ pumpNames → name ∈ netLinks →
      (pyUpper tok = "OPEN" ∨ pyUpper tok = "1" ∨ pyUpper tok = "ON" ∨ pyUpper tok = "TRUE") →
      applyPumpEntry pumpNames netLinks status name tok name = LinkStatus.Opened) ∧
    (name ∈ pumpNames → name ∈ netLinks →
      (pyUpper tok = "CLOSED" ∨ pyUpper tok = "0" ∨ pyUpper tok = "OFF" ∨
        pyUpper tok = "FALSE") →
      applyPumpEntry pumpNames netLinks status name tok name = LinkStatus.Closed) ∧
    (¬ (pyUpper tok = "OPEN" ∨ pyUpper tok = "1" ∨ pyUpper tok = "ON" ∨
        pyUpper tok = "TRUE") →
     ¬ (pyUpper tok = "CLOSED" ∨ pyUpper tok = "0" ∨ pyUpper tok = "OFF" ∨
        pyUpper tok = "FALSE") →
      applyPumpEntry pumpNames netLinks status name tok = status) ∧
    (∀ cmds : List (String × String), (∀ kv ∈ cmds, kv.1 ∉ pumpNames) →
      applyPumpCmds pumpNames netLinks status cmds = status) := by
  refine ⟨?_, ?_, ?_, ?_, ?_⟩
  · intro h1
    simp only [applyPumpEntry, if_neg h1]
  · intro h1 h2 h3
    simp only [applyPumpEntry, if_pos h1, if_pos h2]
    rw [if_pos h3, if_pos rfl]
  · intro h1 h2 h3
    have hno : ¬ (pyUpper tok = "OPEN" ∨ pyUpper tok = "1" ∨ pyUpper tok = "ON" ∨
        pyUpper tok = "TRUE") := by
      rcases h3 with h | h | h | h <;> simp [h]
    simp only [applyPumpEntry, if_pos h1, if_pos h2]
    rw [if_neg hno, if_pos h3, if_pos rfl]
  · intro hno hnc
    simp only [applyPumpEntry]
    by_cases hp : name ∈ pumpNames
    · by_cases hl : name ∈ netLinks
      · rw [if_pos hp, if_pos hl, if_neg hno, if_neg hnc]
      · rw [if_pos hp, if_neg hl]
    · rw [if_neg hp]
  · intro cmds
    induction cmds with
    | nil => intro _; rfl
    | cons hd tl ih =>
      intro hall
      have h1 : hd.1 ∉ pumpNames := hall hd (List.mem_cons_self hd tl)
      have hstep : applyPumpEntry pumpNames netLinks status hd.1 hd.2 = status := by
        simp only [applyPumpEntry, if_neg h1]
      simp only [applyPumpCmds, List.foldl_cons] at ih ⊢
      rw [hstep]
      exact ih (fun kv hm => hall kv (List.mem_cons_of_mem hd hm))

/-- Witness for C5: on a session configured with pump PUMP1 (present in the
network), the lower-case synonym token "on" opens it, "off" closes it (both
normalized), an unrecognized token "MAYBE" leaves the status map untouched, and
a command for unknown pump PUMP9 is silently ignored. -/
theorem step_command_application_witness :
    applyPumpEntry ["PUMP1"] ["PUMP1"] (fun _ => LinkStatus.Closed) "PUMP1" "on" "PUMP1"
        = LinkStatus.Opened ∧
    applyPumpEntry ["PUMP1"] ["PUMP1"] (fun _ => LinkStatus.Opened) "PUMP1" "off" "PUMP1"
        = LinkStatus.Closed ∧
    applyPumpEntry ["PUMP1"] ["PUMP1"] (fun _ => LinkStatus.Closed) "PUMP1" "MAYBE"
        = (fun _ => LinkStatus.Closed) ∧
    applyPumpCmds ["PUMP1"] ["PUMP1"] (fun _ => LinkStatus.Closed) [("PUMP9", "OPEN")]
        = (fun _ => LinkStatus.Closed) := by
  refine ⟨?_, ?_, ?_, ?_⟩
  · exact (step_command_application ["PUMP1"] ["PUMP1"] (fun _ => LinkStatus.Closed)
      "PUMP1" "on").2.1 (by decide) (by decide) (Or.inr (Or.inr (Or.inl (by decide))))
  · exact (step_command_application ["PUMP1"] ["PUMP1"] (fun _ => LinkStatus.Opened)
      "PUMP1" "off").2.2.1 (by decide) (by decide) (Or.inr (Or.inr (Or.inl (by decide))))
  · exact (step_command_application ["PUMP1"] ["PUMP1"] (fun _ => LinkStatus.Closed)
      "PUMP1" "MAYBE").2.2.2.1 (by decide) (by decide)
  · exact (step_command_application ["PUMP1"] ["PUMP1"] (fun _ => LinkStatus.Closed)
      "PUMP9" "OPEN").2.2.2.2 [("PUMP9", "OPEN")] (by decide)

/-- C1 counterexample: the claim says stalls in a solve-and-advance sub-step loop
are observable through the session's reported simulated time falling short of the
requested target. In the code no such loop exists: on a freshly reset session
(`sim_time = 0`) a `step(dt = 60)` whose solver makes zero progress (the spec-side
sub-step model consumes 0 of the requested 60 s and would report time 0) still
reports simulated time exactly 60 = 0 + 60, never less than the target. -/
theorem step_substep_stall_counterexample :
    specStepSimTime (fun _ => 0) 1 0 60 = 0 ∧
    WNTRPlant.stepSimTime 0 60 = 0 + 60 ∧
    ¬ WNTRPlant.stepSimTime 0 60 < 0 + 60 := by
  refine ⟨?_, rfl, ?_⟩
  · show (0 : ℚ) + specSubstepAdvance (fun _ => 0) 60 1 0 0 = 0
    norm_num [specSubstepAdvance]
  · show ¬ (0 : ℚ) + 60 < 0 + 60
    exact lt_irrefl _

/-- C1 (amended): `WNTRPlant.step` performs no solve-and-advance sub-step loop and
no stall detection: it advances the session's reported simulated time by exactly
`dt` unconditionally (so the reported time always equals the requested target,
never less), and then re-runs the solver from time zero with duration
`int(round(sim_time))`. -/
theorem step_advances_unconditionally (simTime dt : ℚ) :
    WNTRPlant.stepSimTime simTime dt = simTime + dt ∧
    ¬ WNTRPlant.stepSimTime simTime dt < simTime + dt ∧
    WNTRPlant.stepTargetT simTime dt = pyRound (simTime + dt) := by
  exact ⟨rfl, lt_irrefl _, rfl⟩

/-- C4 counterexample: the loop already stands at t = 60 with one record and one
completed physical advance; the broker grants 60 again (zero elapsed simulated
time). The claim says no step is performed and no duplicate record appended, but
the loop body increments the step counter, advances the session time by the
nominal dt, and appends a record identical to the previous one. -/
theorem phys_loop_equal_grant_counterexample :
    (physLoopIter 60 [] none none emptyObserve physStateAt60 60 []).stepCount = 2 ∧
    (physLoopIter 60 [] none none emptyObserve physStateAt60 60 []).records =
      [[("t", JValue.int 60), ("tank_level", JValue.null)],
       [("t", JValue.int 60), ("tank_level", JValue.null)]] ∧
    (physLoopIter 60 [] none none emptyObserve physStateAt60 60 []).simTime = 120 := by
  refine ⟨rfl, rfl, ?_⟩
  show WNTRPlant.stepSimTime physStateAt60.simTime 60 = 120
  norm_num [WNTRPlant.stepSimTime, physStateAt60]

/-- C4 (amended): the physical federate's running loop has no elapsed-time guard:
every iteration — whatever time the broker grants, including a grant equal to the
previous one — invokes the session's `step` with the nominal `dt` (advancing the
reported time by `dt` and incrementing the step counter) and appends exactly one
record, keyed by the truncated granted time. -/
theorem phys_loop_steps_every_iteration (dt : ℚ) (pumpNames : List String)
    (defaultTank tankId : Option String) (observeAt : ℤ → WNTRState)
    (st : PhysLoopState) (granted : ℚ)
    (updates : List (Option (Except String (List (String × JValue))))) :
    (physLoopIter dt pumpNames defaultTank tankId observeAt st granted updates).stepCount
        = st.stepCount + 1 ∧
    (physLoopIter dt pumpNames defaultTank tankId observeAt st granted updates).records.length
        = st.records.length + 1 ∧
    (physLoopIter dt pumpNames defaultTank tankId observeAt st granted updates).simTime
        = st.simTime + dt ∧
    (physLoopIter dt pumpNames defaultTank tankId observeAt st granted updates).t
        = granted := by
  refine ⟨rfl, ?_, rfl, rfl⟩
  simp [physLoopIter]

/-- C6: in both federate loops, absent updates and updates whose payload fails
JSON decoding or schema conversion leave the previously held value unchanged —
the pending-command accumulator in the physical federate, the last snapshot in
the controller federate — and the handling is total (the embedded update
functions are total Lean functions, mirroring the catch-all `except` around the
decode); a successfully parsed command is merged in full and a successfully
parsed snapshot replaces the previous one in full. -/
theorem malformed_update_retained (pending : List (String × String))
    (snap : List (String × ℚ)) :
    (physApplyUpdate pending none = pending) ∧
    (∀ e, physApplyUpdate pending (some (Except.error e)) = pending) ∧
    (∀ d e, ActuatorCommand.from_dict d = Except.error e →
      physApplyUpdate pending (some (Except.ok d)) = pending) ∧
    (∀ d incoming, ActuatorCommand.from_dict d = Except.ok incoming →
      physApplyUpdate pending (some (Except.ok d)) = mergeCmd pending incoming) ∧
    (ctrlApplyUpdate snap none = snap) ∧
    (∀ e, ctrlApplyUpdate snap (some (Except.error e)) = snap) ∧
    (∀ d e, SensorSnapshot.from_dict d = Except.error e →
      ctrlApplyUpdate snap (some (Except.ok d)) = snap) ∧
    (∀ d s, SensorSnapshot.from_dict d = Except.ok s →
      ctrlApplyUpdate snap (some (Except.ok d)) = s) := by
  refine ⟨rfl, fun e => rfl, ?_, ?_, rfl, fun e => rfl, ?_, ?_⟩
  · intro d e h
    simp [physApplyUpdate, h]
  · intro d incoming h
    simp [physApplyUpdate, h]
  · intro d e h
    simp [ctrlApplyUpdate, h]
  · intro d s h
    simp [ctrlApplyUpdate, h]

/-- Witness for C6: a command payload whose `pumps` field is not a mapping is
discarded (the accumulator keeps PUMP1=OPEN), a well-formed command payload is
merged in full, and a snapshot payload whose `tank_level` field is not a mapping
is discarded (the last snapshot survives). -/
theorem malformed_update_retained_witness :
    physApplyUpdate [("PUMP1", "OPEN")] (some (Except.ok [("pumps", JValue.int 5)]))
        = [("PUMP1", "OPEN")] ∧
    physApplyUpdate [("PUMP1", "OPEN")]
        (some (Except.ok [("pumps", JValue.obj [("PUMP2", JValue.str "CLOSED")])]))
        = mergeCmd [("PUMP1", "OPEN")] [("PUMP2", "CLOSED")] ∧
    ctrlApplyUpdate [("TANK", 5)]
        (some (Except.ok [("tank_level", JValue.int 7)])) = [("TANK", 5)] := by
  refine ⟨?_, ?_, ?_⟩
  · exact (malformed_update_retained [("PUMP1", "OPEN")] []).2.2.1
      [("pumps", JValue.int 5)] "AttributeError: items" rfl
  · exact (malformed_update_retained [("PUMP1", "OPEN")] []).2.2.2.1
      [("pumps", JValue.obj [("PUMP2", JValue.str "CLOSED")])] [("PUMP2", "CLOSED")] rfl
  · exact (malformed_update_retained [] [("TANK", 5)]).2.2.2.2.2.2.1
      [("tank_level", JValue.int 7)] "AttributeError: items" rfl

/-- C7 counterexample: a hysteresis controller configured with the degenerate
dead band below = 12 ≥ above = 10 is not rejected at startup: the controller's
configuration scan parses it into a runtime entry carrying the degenerate band
(no error of any kind is raised before the Running loop). -/
theorem degenerate_band_accepted_counterexample :
    parsePlcCfgs [plcDictWithBand 12 10] =
      Except.ok [{ topic := JValue.str "ctrl/commands/PUMP1"
                   pump := JValue.str "plc_pump1"
                   below := 12
                   above := 10
                   initial := "CLOSED"
                   openVal := "OPEN"
                   closedVal := "CLOSED" }] ∧
    ¬ ((12 : ℚ) < 10) := by
  constructor
  · rfl
  · norm_num

/-- C7 (amended): the controller performs no dead-band validation at startup:
for every pair of integer thresholds, degenerate or not, the configuration scan
accepts the entry and carries the band through unchanged into the Running loop's
controller list. -/
theorem band_never_validated (below above : ℤ) :
    parsePlcCfgs [plcDictWithBand below above] =
      Except.ok [{ topic := JValue.str "ctrl/commands/PUMP1"
                   pump := JValue.str "plc_pump1"
                   below := (below : ℚ)
                   above := (above : ℚ)
                   initial := "CLOSED"
                   openVal := "OPEN"
                   closedVal := "CLOSED" }] := rfl

/-- C9 counterexample: with one configured pump PUMP1 the claimed layout has a
PUMP1_status column, but the header of the report the physical federate actually
writes (`output/helics_phys_tank.csv`, phys_fed/federate.py line 181) is exactly
`t, tank_level` — the pump columns exist only in `WNTRPlant.write_records_csv`,
which the federate does not use for its report. -/
theorem report_columns_counterexample :
    (physFedCsv []).1 = ["t", "tank_level"] ∧
    (WNTRPlant.write_records_csv ["PUMP1"] []).1 = ["t", "tank_level", "PUMP1_status"] ∧
    (physFedCsv []).1 ≠ (WNTRPlant.write_records_csv ["PUMP1"] []).1 := by
  refine ⟨rfl, rfl, ?_⟩
  decide

/-- C9 (amended): `WNTRPlant.write_records_csv` emits the claimed layout — header
`t`, `tank_level`, then one `<pump>_status` column per configured pump in the
pump list's declared order, one data row per record, each row's cell count
matching the header — but the report the physical federate itself writes has
only the two columns `t` and `tank_level` (still one row per record). -/
theorem report_column_order (pumpNames : List String)
    (records : List (List (String × JValue))) :
    (WNTRPlant.write_records_csv pumpNames records).1 =
      "t" :: "tank_level" :: pumpNames.map (fun p => p ++ "_status") ∧
    (WNTRPlant.write_records_csv pumpNames records).2.length = records.length ∧
    (∀ row ∈ (WNTRPlant.write_records_csv pumpNames records).2,
      row.length = 2 + pumpNames.length) ∧
    (physFedCsv records).1 = ["t", "tank_level"] ∧
    (physFedCsv records).2.length = records.length := by
  refine ⟨rfl, by simp [WNTRPlant.write_records_csv], ?_, rfl,
    by simp [physFedCsv]⟩
  intro row hrow
  simp only [WNTRPlant.write_records_csv, List.mem_map] at hrow
  obtain ⟨r, _, rfl⟩ := hrow
  simp only [List.length_cons, List.length_map]
  omega

/-- Witness for C9's amended theorem: one configured pump and one record yield a
data row of 2 + 1 cells. -/
theorem report_column_order_witness :
    ([JValue.int 0, JValue.str "", JValue.str ""] : List JValue).length
      = 2 + (["PUMP1"] : List String).length := by
  have h := report_column_order ["PUMP1"] [[("t", JValue.int 0)]]
  refine h.2.2.1 [JValue.int 0, JValue.str "", JValue.str ""] ?_
  rw [show (WNTRPlant.write_records_csv ["PUMP1"] [[("t", JValue.int 0)]]).2 =
    [[JValue.int 0, JValue.str "", JValue.str ""]] from rfl]
  exact List.mem_singleton.mpr rfl

/-- Every value readable from a successful float-coercing traversal comes either
from a coerced input entry or from the initial accumulator. -/
theorem coerceFloatItems_ok_lookup (fields : List (String × JValue))
    (init m : List (String × ℚ)) (h : coerceFloatItems fields init = Except.ok m)
    (k : String) (q : ℚ) (hlk : pyLookup m k = some q) :
    (∃ v, (k, v) ∈ fields ∧ pyFloat v = Except.ok q) ∨ pyLookup init k = some q := by
  induction fields generalizing init with
  | nil =>
    cases h
    exact Or.inr hlk
  | cons hd tl ih =>
    obtain ⟨k0, v0⟩ := hd
    simp only [coerceFloatItems] at h
    cases hq : pyFloat v0 with
    | error e =>
      rw [hq] at h
      cases h
    | ok q0 =>
      rw [hq] at h
      rcases ih (pyInsert init k0 q0) h with h1 | h2
      · obtain ⟨v, hv, hpv⟩ := h1
        exact Or.inl ⟨v, List.mem_cons_of_mem _ hv, hpv⟩
      · rw [pyLookup_pyInsert] at h2
        by_cases hkk : k0 = k
        · subst hkk
          rw [if_pos rfl] at h2
          cases h2
          exact Or.inl ⟨v0, List.mem_cons_self _ _, hq⟩
        · rw [if_neg hkk] at h2
          exact Or.inr h2

/-- Every value readable from the str-coercing traversal comes either from a
coerced input entry or from the initial accumulator. -/
theorem coerceStrItems_lookup (fields : List (String × JValue))
    (init : List (String × String)) (k s : String)
    (hlk : pyLookup (coerceStrItems fields init) k = some s) :
    (∃ v, (k, v) ∈ fields ∧ pyStr v = s) ∨ pyLookup init k = some s := by
  induction fields generalizing init with
  | nil => exact Or.inr hlk
  | cons hd tl ih =>
    obtain ⟨k0, v0⟩ := hd
    simp only [coerceStrItems] at hlk
    rcases ih (pyInsert init k0 (pyStr v0)) hlk with h1 | h2
    · obtain ⟨v, hv, hpv⟩ := h1
      exact Or.inl ⟨v, List.mem_cons_of_mem _ hv, hpv⟩
    · rw [pyLookup_pyInsert] at h2
      by_cases hkk : k0 = k
      · subst hkk
        rw [if_pos rfl] at h2
        cases h2
        exact Or.inl ⟨v0, List.mem_cons_self _ _, rfl⟩
      · rw [if_neg hkk] at h2
        exact Or.inr h2

/-- C10: when the `tank_level` (resp. `pumps`) key is missing or null,
`SensorSnapshot.from_dict` (resp. `ActuatorCommand.from_dict`) returns an empty
mapping instead of raising; and whenever conversion succeeds on a mapping field,
every entry of the result is the float (resp. str) coercion of some input entry
— keys of a decoded JSON mapping are already strings, and the result is
well-typed (`String → ℚ`, resp. `String → String`) by construction. -/
theorem from_dict_defaults_and_coercion (d : List (String × JValue)) :
    ((pyLookup d "tank_level" = none ∨ pyLookup d "tank_level" = some JValue.null) →
      SensorSnapshot.from_dict d = Except.ok []) ∧
    ((pyLookup d "pumps" = none ∨ pyLookup d "pumps" = some JValue.null) →
      ActuatorCommand.from_dict d = Except.ok []) ∧
    (∀ fields m, pyLookup d "tank_level" = some (JValue.obj fields) →
      SensorSnapshot.from_dict d = Except.ok m →
      ∀ k q, pyLookup m k = some q →
        ∃ v, (k, v) ∈ fields ∧ pyFloat v = Except.ok q) ∧
    (∀ fields m, pyLookup d "pumps" = some (JValue.obj fields) →
      ActuatorCommand.from_dict d = Except.ok m →
      ∀ k s, pyLookup m k = some s → ∃ v, (k, v) ∈ fields ∧ pyStr v = s) := by
  refine ⟨?_, ?_, ?_, ?_⟩
  · intro h
    rcases h with h | h <;>
      simp [SensorSnapshot.from_dict, h, pyOr, jTruthy, jItems, coerceFloatItems]
  · intro h
    rcases h with h | h <;>
      simp [ActuatorCommand.from_dict, h, pyOr, jTruthy, jItems, coerceStrItems]
  · intro fields m hf hok k q hlk
    have hfrom : SensorSnapshot.from_dict d = coerceFloatItems fields [] := by
      cases fields with
      | nil => simp [SensorSnapshot.from_dict, hf, pyOr, jTruthy, jItems]
      | cons f fs => simp [SensorSnapshot.from_dict, hf, pyOr, jTruthy, jItems]
    rw [hfrom] at hok
    rcases coerceFloatItems_ok_lookup fields [] m hok k q hlk with h1 | h2
    · exact h1
    · cases h2
  · intro fields m hf hok k s hlk
    have hfrom : ActuatorCommand.from_dict d = Except.ok (coerceStrItems fields []) := by
      cases fields with
      | nil => simp [ActuatorCommand.from_dict, hf, pyOr, jTruthy, jItems]
      | cons f fs => simp [ActuatorCommand.from_dict, hf, pyOr, jTruthy, jItems]
    rw [hfrom] at hok
    cases hok
    rcases coerceStrItems_lookup fields [] k s hlk with h1 | h2
    · exact h1
    · cases h2

/-- Witness for C10: a null `tank_level` gives the empty snapshot; a missing
`pumps` key gives the empty command; a well-formed snapshot field traces the
value 3 at key TANK back to the input entry; likewise for an OPEN command. -/
theorem from_dict_defaults_and_coercion_witness :
    SensorSnapshot.from_dict [("tank_level", JValue.null)] = Except.ok [] ∧
    ActuatorCommand.from_dict [("tank_level", JValue.null)] = Except.ok [] ∧
    (∃ v, ("TANK", v) ∈ [("TANK", JValue.int 3)] ∧ pyFloat v = Except.ok 3) ∧
    (∃ v, ("PUMP1", v) ∈ [("PUMP1", JValue.str "OPEN")] ∧ pyStr v = "OPEN") := by
  refine ⟨?_, ?_, ?_, ?_⟩
  · exact (from_dict_defaults_and_coercion [("tank_level", JValue.null)]).1 (Or.inr rfl)
  · exact (from_dict_defaults_and_coercion [("tank_level", JValue.null)]).2.1 (Or.inl rfl)
  · exact (from_dict_defaults_and_coercion
      [("tank_level", JValue.obj [("TANK", JValue.int 3)])]).2.2.1
      [("TANK", JValue.int 3)] [("TANK", 3)] rfl rfl "TANK" 3 rfl
  · exact (from_dict_defaults_and_coercion
      [("pumps", JValue.obj [("PUMP1", JValue.str "OPEN")])]).2.2.2
      [("PUMP1", JValue.str "OPEN")] [("PUMP1", "OPEN")] rfl rfl "PUMP1" "OPEN" rfl
